import Mathlib

/-!
Verification development for the apni-zameen land-record reconciliation backend.

Shallow embedding conventions:
* Python `float` values are modelled as `ℚ` (the code performs only exact
  arithmetic: sums, differences, divisions and comparisons).
* Python `None`-able values are modelled as `Option`.
* Python truthiness (`if x:`) on floats/strings/options is modelled explicitly
  by `pyTruthyQ` / `pyTruthyStr`.
* The SQLAlchemy session is modelled as an explicit `Database` record threaded
  through the service functions; `db.commit()` is a no-op in this model and
  raised exceptions are modelled with `Except` (the code raises before any
  mutation, so an error result stands for "no mutation, no audit write").
* `datetime.utcnow()` is modelled by an explicit `now : Nat` parameter.
* JSON serialisation of the `details` payload (`json.dumps`/`json.loads`) is
  modelled as the identity on a structured `DiscDetails` value.
-/

namespace ApniZameen

/-! ### Small Python-semantics helpers -/

/-- Truthiness of an optional string: `None` and `''` are falsy. -/
def pyTruthyStr : Option String → Bool
  | none => false
  | some s => s != ""

/-- Python `str.split()` (split on whitespace runs, dropping empties). -/
def pySplit (s : String) : List String :=
  (s.split Char.isWhitespace).filter (fun w => w != "")

/-- Python `round` / float formatting round to nearest, ties to even. -/
def roundHalfEvenInt (q : ℚ) : Int :=
  let f := ⌊q⌋
  let frac := q - (f : ℚ)
  if frac < 1/2 then f
  else if 1/2 < frac then f + 1
  else if f % 2 = 0 then f else f + 1

/-- Python `round(x, 2)`. -/
def round2 (q : ℚ) : ℚ := (roundHalfEvenInt (q * 100) : ℚ) / 100

/-- Left-pad a digit string with zeros to the given width. -/
def padZeros (s : String) (d : Nat) : String :=
  String.mk (List.replicate (d - s.length) '0') ++ s

/-- Python fixed-point formatting of a rational with `d` decimal places. -/
def formatFixed (q : ℚ) (d : Nat) : String :=
  let scaled := roundHalfEvenInt (q * ((10 : ℚ) ^ d))
  let sign := if scaled < 0 then "-" else ""
  let n := scaled.natAbs
  let ip := n / 10 ^ d
  let fp := n % 10 ^ d
  if d = 0 then sign ++ toString ip
  else sign ++ toString ip ++ "." ++ padZeros (toString fp) d

/-- Update an association list the way `dict.update` does: existing keys keep
their position and take the new value, new keys are appended in order. -/
def dictUpdate {β : Type} (old new : List (String × β)) : List (String × β) :=
  (old.map (fun kv => match new.lookup kv.1 with
    | some v => (kv.1, v)
    | none => kv)) ++
  new.filter (fun kv => (old.lookup kv.1).isNone)

/-- Replace the first element satisfying `q` by `v` (models mutating the row
returned by `query(...).first()`). -/
def replaceFirst {α : Type} (q : α → Bool) (v : α) : List α → List α
  | [] => []
  | x :: xs => if q x then v :: xs else x :: replaceFirst q v xs

/-! ### Configuration (`app/config.py`) -/

/-- `settings.area_tolerance_minor` default. -/
def settings.area_tolerance_minor : ℚ := 5

/-- `settings.area_tolerance_major` default. -/
def settings.area_tolerance_major : ℚ := 15

inductive DiscrepancySeverity
  | critical
  | major
  | minor
deriving DecidableEq, Repr

structure SeverityScore where
  total_score : Int
  severity : DiscrepancySeverity
  factors : List (String × Int)
  explanation_hindi : String
  explanation_english : String
  priority_rank : Int
deriving DecidableEq, Repr

/-- The `SCORING_WEIGHTS` table. -/
def SCORING_WEIGHTS : String → Int
  | "area_critical_mismatch" => 40
  | "area_major_mismatch" => 25
  | "area_minor_mismatch" => 10
  | "name_no_match" => 30
  | "name_partial_match" => 15
  | "name_likely_match" => 5
  | "missing_parcel_geometry" => 25
  | "missing_ownership_record" => 25
  | "missing_father_name" => 5
  | "missing_area_value" => 10
  | "duplicate_plot_id" => 35
  | "overlapping_geometry" => 30
  | "repeated_discrepancy" => 15
  | "recently_resolved" => -10
  | _ => 0

/-- `calculate_area_score`. -/
def calculate_area_score (computed_sqm recorded_sqm : Option ℚ) :
    Int × String × String :=
  match computed_sqm, recorded_sqm with
  | none, _ =>
    (SCORING_WEIGHTS "missing_area_value", "क्षेत्रफल तुलना संभव नहीं",
     "Area comparison not possible")
  | _, none =>
    (SCORING_WEIGHTS "missing_area_value", "क्षेत्रफल तुलना संभव नहीं",
     "Area comparison not possible")
  | some c, some r =>
    if r = 0 then
      (SCORING_WEIGHTS "area_critical_mismatch", "दर्ज क्षेत्रफल शून्य है",
       "Recorded area is zero")
    else
      let diff_percent := |c - r| / r * 100
      if 25 < diff_percent then
        (SCORING_WEIGHTS "area_critical_mismatch",
         "क्षेत्रफल में " ++ formatFixed diff_percent 1 ++ "% का गंभीर अंतर",
         "Critical area difference of " ++ formatFixed diff_percent 1 ++ "%")
      else if 10 < diff_percent then
        (SCORING_WEIGHTS "area_major_mismatch",
         "क्षेत्रफल में " ++ formatFixed diff_percent 1 ++ "% का महत्वपूर्ण अंतर",
         "Major area difference of " ++ formatFixed diff_percent 1 ++ "%")
      else if 5 < diff_percent then
        (SCORING_WEIGHTS "area_minor_mismatch",
         "क्षेत्रफल में " ++ formatFixed diff_percent 1 ++ "% का मामूली अंतर",
         "Minor area difference of " ++ formatFixed diff_percent 1 ++ "%")
      else
        (0, "क्षेत्रफल स्वीकार्य सीमा में", "Area within acceptable range")

/-- `calculate_name_score`. -/
def calculate_name_score (similarity_percent : ℚ) : Int × String × String :=
  if similarity_percent < 50 then
    (SCORING_WEIGHTS "name_no_match",
     "नाम में केवल " ++ formatFixed similarity_percent 0 ++ "% समानता (मेल नहीं खाता)",
     "Names only " ++ formatFixed similarity_percent 0 ++ "% similar (no match)")
  else if similarity_percent < 80 then
    (SCORING_WEIGHTS "name_partial_match",
     "नाम में " ++ formatFixed similarity_percent 0 ++ "% समानता (आंशिक मिलान)",
     "Names " ++ formatFixed similarity_percent 0 ++ "% similar (partial match)")
  else if similarity_percent < 95 then
    (SCORING_WEIGHTS "name_likely_match",
     "नाम में " ++ formatFixed similarity_percent 0 ++ "% समानता (संभावित मिलान)",
     "Names " ++ formatFixed similarity_percent 0 ++ "% similar (likely match)")
  else
    (0, "नाम पूर्णतः मेल खाता है", "Names match")

/-- `calculate_completeness_score`. -/
def calculate_completeness_score (has_geometry has_record has_father_name
    has_area_values : Bool) : Int × List String × List String :=
  let acc : Int × List String × List String := (0, [], [])
  let acc := if !has_geometry then
      (acc.1 + SCORING_WEIGHTS "missing_parcel_geometry",
       acc.2.1 ++ ["भूखंड का नक्शा उपलब्ध नहीं"],
       acc.2.2 ++ ["Parcel geometry not available"])
    else acc
  let acc := if !has_record then
      (acc.1 + SCORING_WEIGHTS "missing_ownership_record",
       acc.2.1 ++ ["स्वामित्व रिकॉर्ड उपलब्ध नहीं"],
       acc.2.2 ++ ["Ownership record not available"])
    else acc
  let acc := if !has_father_name then
      (acc.1 + SCORING_WEIGHTS "missing_father_name",
       acc.2.1 ++ ["पिता का नाम गायब"],
       acc.2.2 ++ ["Father name missing"])
    else acc
  if !has_area_values then
    (acc.1 + SCORING_WEIGHTS "missing_area_value",
     acc.2.1 ++ ["क्षेत्रफल मान गायब"],
     acc.2.2 ++ ["Area values missing"])
  else acc

/-- `compute_severity_score`.  Arguments are positional, in the source's
order (the Python defaults are supplied explicitly at every call site). -/
def compute_severity_score (discrepancy_type : String)
    (area_computed area_recorded : Option ℚ) (name_similarity : Option ℚ)
    (has_geometry has_record has_father_name : Bool)
    (previous_occurrences : Nat) (was_resolved_before : Bool) : SeverityScore :=
  -- 1. type-specific scoring
  let acc : Int × List (String × Int) × List String × List String :=
    if discrepancy_type = "area_mismatch" then
      let (score, exp_hi, exp_en) := calculate_area_score area_computed area_recorded
      (score, [("area", score)], [exp_hi], [exp_en])
    else if discrepancy_type = "name_mismatch" then
      match name_similarity with
      | some sim =>
        let (score, exp_hi, exp_en) := calculate_name_score sim
        (score, [("name", score)], [exp_hi], [exp_en])
      | none => (0, [], [], [])
    else if discrepancy_type = "missing_record" then
      (SCORING_WEIGHTS "missing_ownership_record",
       [("missing_record", SCORING_WEIGHTS "missing_ownership_record")],
       ["भूखंड के लिए स्वामित्व रिकॉर्ड नहीं मिला"], ["No ownership record found for parcel"])
    else if discrepancy_type = "missing_parcel" then
      (SCORING_WEIGHTS "missing_parcel_geometry",
       [("missing_parcel", SCORING_WEIGHTS "missing_parcel_geometry")],
       ["रिकॉर्ड के लिए भूखंड नक्शा नहीं मिला"], ["No parcel geometry found for record"])
    else if discrepancy_type = "duplicate_record" then
      (SCORING_WEIGHTS "duplicate_plot_id",
       [("duplicate", SCORING_WEIGHTS "duplicate_plot_id")],
       ["एक ही प्लॉट आईडी के लिए कई रिकॉर्ड"], ["Multiple records for same plot ID"])
    else if discrepancy_type = "duplicate_parcel" then
      (SCORING_WEIGHTS "overlapping_geometry",
       [("duplicate", SCORING_WEIGHTS "overlapping_geometry")],
       ["ओवरलैपिंग भूखंड सीमाएं पाई गईं"], ["Overlapping parcel boundaries found"])
    else (0, [], [], [])
  -- 2. completeness scoring
  let (comp_score, comp_hi, comp_en) := calculate_completeness_score
    has_geometry has_record has_father_name
    (area_computed.isSome && area_recorded.isSome)
  let acc := if 0 < comp_score then
      (acc.1 + comp_score, acc.2.1 ++ [("completeness", comp_score)],
       acc.2.2.1 ++ comp_hi, acc.2.2.2 ++ comp_en)
    else acc
  -- 3. historical pattern adjustment
  let acc := if 0 < previous_occurrences then
      let repeat_score := min (SCORING_WEIGHTS "repeated_discrepancy")
        ((previous_occurrences : Int) * 5)
      (acc.1 + repeat_score, acc.2.1 ++ [("repeated", repeat_score)],
       acc.2.2.1 ++ ["यह समस्या " ++ toString previous_occurrences ++ " बार पहले भी आई है"],
       acc.2.2.2 ++ ["This issue has occurred " ++ toString previous_occurrences ++ " times before"])
    else acc
  let acc := if was_resolved_before then
      (acc.1 + SCORING_WEIGHTS "recently_resolved",
       acc.2.1 ++ [("previously_resolved", SCORING_WEIGHTS "recently_resolved")],
       acc.2.2.1 ++ ["पहले सुलझाया गया था"], acc.2.2.2 ++ ["Was previously resolved"])
    else acc
  -- 4. cap score at 0-100
  let total_score := max 0 (min 100 acc.1)
  -- 5. severity level, 6. priority rank
  { total_score := total_score
    severity := if 80 ≤ total_score then .critical
      else if 50 ≤ total_score then .major
      else .minor
    factors := acc.2.1
    explanation_hindi := " | ".intercalate acc.2.2.1
    explanation_english := " | ".intercalate acc.2.2.2
    priority_rank := 100 - total_score }

/-! ### Advanced name matching (`app/services/advanced_name_matching.py`) -/

structure NameMatch where
  similarity_score : ℚ
  match_type : String
  confidence : String
  explanation_hindi : String
  explanation_english : String
  details : List (String × String)
deriving DecidableEq, Repr

def HINDI_TITLES : List String :=
  ["श्री", "श्रीमती", "कुमारी", "डॉ", "डॉ.", "स्व.", "स्वर्गीय",
   "बाबू", "चौधरी", "ठाकुर", "राजा", "पंडित", "मौलवी"]

def ENGLISH_TITLES : List String :=
  ["shri", "smt", "kumari", "dr", "dr.", "late", "mr", "mrs", "ms",
   "babu", "chaudhary", "thakur", "raja", "pandit", "maulvi"]

/-- Canonical decomposition of the precomposed Devanagari nukta letters
(the only characters with canonical decompositions that these inputs can
contain). -/
def devanagariDecomp (c : Char) : List Char :=
  if c = Char.ofNat 0x0929 then [Char.ofNat 0x0928, Char.ofNat 0x093C]
  else if c = Char.ofNat 0x0931 then [Char.ofNat 0x0930, Char.ofNat 0x093C]
  else if c = Char.ofNat 0x0934 then [Char.ofNat 0x0933, Char.ofNat 0x093C]
  else if c = Char.ofNat 0x0958 then [Char.ofNat 0x0915, Char.ofNat 0x093C]
  else if c = Char.ofNat 0x0959 then [Char.ofNat 0x0916, Char.ofNat 0x093C]
  else if c = Char.ofNat 0x095A then [Char.ofNat 0x0917, Char.ofNat 0x093C]
  else if c = Char.ofNat 0x095B then [Char.ofNat 0x091C, Char.ofNat 0x093C]
  else if c = Char.ofNat 0x095C then [Char.ofNat 0x0921, Char.ofNat 0x093C]
  else if c = Char.ofNat 0x095D then [Char.ofNat 0x0922, Char.ofNat 0x093C]
  else if c = Char.ofNat 0x095E then [Char.ofNat 0x092B, Char.ofNat 0x093C]
  else if c = Char.ofNat 0x095F then [Char.ofNat 0x092F, Char.ofNat 0x093C]
  else [c]

/-- Canonical composition of base + nukta pairs that are not composition
exclusions (U+0929, U+0931, U+0934; the U+0958..U+095F letters are excluded
and stay decomposed). -/
def devanagariCompose : List Char → List Char
  | a :: b :: rest =>
    if b = Char.ofNat 0x093C && a = Char.ofNat 0x0928 then
      Char.ofNat 0x0929 :: devanagariCompose rest
    else if b = Char.ofNat 0x093C && a = Char.ofNat 0x0930 then
      Char.ofNat 0x0931 :: devanagariCompose rest
    else if b = Char.ofNat 0x093C && a = Char.ofNat 0x0933 then
      Char.ofNat 0x0934 :: devanagariCompose rest
    else a :: devanagariCompose (b :: rest)
  | l => l

/-- Models `unicodedata.normalize('NFC', s)` restricted to the Devanagari
block: identity on every character without a canonical decomposition. -/
def unicodeNFC (s : String) : String :=
  String.mk (devanagariCompose ((s.data.map devanagariDecomp).flatten))

/-- The punctuation class removed by `normalize_hindi`. -/
def HINDI_PUNCT : List Char := ['।', ',', '.', '॥', '-', '/']

/-- `normalize_hindi`. -/
def normalize_hindi (name : String) : String :=
  if name = "" then ""
  else
    let words := (pySplit name).filter (fun w => !(HINDI_TITLES.contains w))
    let name := " ".intercalate words
    let name := unicodeNFC name
    let name := String.mk (name.data.map (fun c =>
      if HINDI_PUNCT.contains c then ' ' else c))
    " ".intercalate (pySplit name)

/-- `normalize_english`. -/
def normalize_english (name : String) : String :=
  if name = "" then ""
  else
    let name := String.map Char.toLower name
    let words := (pySplit name).filter (fun w => !(ENGLISH_TITLES.contains w))
    let name := " ".intercalate words
    let name := String.mk (name.data.filter (fun c =>
      ('a' ≤ c && c ≤ 'z') || c.isWhitespace))
    " ".intercalate (pySplit name)

/-- The ordered substitution list of `generate_phonetic_key`. -/
def PHONETIC_REPLACEMENTS : List (String × String) :=
  [("ph", "f"), ("gh", "g"), ("kh", "k"), ("th", "t"), ("dh", "d"),
   ("bh", "b"), ("chh", "ch"), ("sh", "s"), ("ee", "i"), ("oo", "u"),
   ("aa", "a"), ("ai", "e"), ("au", "o"), ("y", "i"), ("w", "v")]

/-- `re.sub(r'(.)\1+', r'\1', ...)`: collapse runs of equal characters. -/
def collapseDups : List Char → List Char
  | [] => []
  | [c] => [c]
  | a :: b :: rest =>
    if a = b then collapseDups (a :: rest) else a :: collapseDups (b :: rest)

def PHONETIC_VOWELS : List Char := ['a', 'e', 'i', 'o', 'u']

/-- `generate_phonetic_key`. -/
def generate_phonetic_key (name : String) : String :=
  if name = "" then ""
  else
    let name := String.map Char.toLower name
    let name := PHONETIC_REPLACEMENTS.foldl
      (fun n pr => n.replace pr.1 pr.2) name
    let name := String.mk (collapseDups name.data)
    if 1 < name.length then
      match name.data with
      | [] => name
      | first :: rest =>
        String.mk (first :: rest.filter (fun c => !(PHONETIC_VOWELS.contains c)))
    else name

/-- One row step of the longest-common-subsequence table: `prevTail` holds the
previous row from column `j+1` on, `diag` its value at column `j`, `left` the
new row's value at column `j`. -/
def lcsGo (x : Char) : List Char → List Nat → Nat → Nat → List Nat
  | [], _, _, _ => []
  | y :: ys, prevTail, diag, left =>
    let up := prevTail.headD 0
    let cur := if x = y then diag + 1 else max left up
    cur :: lcsGo x ys prevTail.tail up cur

/-- Length of the longest common subsequence (dynamic programming by rows). -/
def lcsLen (xs ys : List Char) : Nat :=
  let init := List.replicate (ys.length + 1) 0
  let final := xs.foldl (fun row x => 0 :: lcsGo x ys row.tail (row.headD 0) 0) init
  final.getLastD 0

/-- Models `Levenshtein.ratio a b` (similarity in [0,1]): with the indel
distance counting substitutions as 2, `ratio = (lensum - dist)/lensum
= 2·LCS(a,b)/lensum`, and 1 for two empty strings. -/
def levenshteinSimilarity (a b : String) : ℚ :=
  let lensum := a.length + b.length
  if lensum = 0 then 1
  else (2 * (lcsLen a.data b.data : ℚ)) / (lensum : ℚ)

/-- `compare_names`. -/
def compare_names (name1_hindi name1_english name2_hindi name2_english :
    Option String) : NameMatch :=
  let h1 := normalize_hindi (name1_hindi.getD "")
  let e1 := normalize_english (name1_english.getD "")
  let h2 := normalize_hindi (name2_hindi.getD "")
  let e2 := normalize_english (name2_english.getD "")
  -- 1. exact match check (highest priority)
  if h1 != "" && h2 != "" && h1 == h2 then
    { similarity_score := 100, match_type := "exact_hindi", confidence := "high",
      explanation_hindi := "हिंदी नाम पूर्णतः मेल खाता है",
      explanation_english := "Hindi names match exactly",
      details := [("matched_value", h1)] }
  else if e1 != "" && e2 != "" && e1 == e2 then
    { similarity_score := 100, match_type := "exact_english", confidence := "high",
      explanation_hindi := "अंग्रेजी नाम पूर्णतः मेल खाता है",
      explanation_english := "English names match exactly",
      details := [("matched_value", e1)] }
  else
    let best : ℚ × String × List (String × String) := (0, "none", [])
    -- 2. Hindi names Levenshtein similarity
    let best := if h1 != "" && h2 != "" then
        let score := levenshteinSimilarity h1 h2 * 100
        if best.1 < score then (score, "hindi_fuzzy", [("hindi1", h1), ("hindi2", h2)])
        else best
      else best
    -- 3. English names Levenshtein similarity
    let best := if e1 != "" && e2 != "" then
        let score := levenshteinSimilarity e1 e2 * 100
        if best.1 < score then (score, "english_fuzzy", [("english1", e1), ("english2", e2)])
        else best
      else best
    -- 4. phonetic matching
    let best := if e1 != "" && e2 != "" then
        let phonetic1 := generate_phonetic_key e1
        let phonetic2 := generate_phonetic_key e2
        let score := levenshteinSimilarity phonetic1 phonetic2 * 100
        if best.1 < score then
          (score, "phonetic", [("phonetic1", phonetic1), ("phonetic2", phonetic2)])
        else best
      else best
    -- 5. cross-language comparison
    let best := if h1 != "" && e2 != "" then
        let score := levenshteinSimilarity (generate_phonetic_key h1)
          (generate_phonetic_key e2) * 100
        if best.1 < score then (score, "cross_language", [("hindi", h1), ("english", e2)])
        else best
      else best
    let best := if h2 != "" && e1 != "" then
        let score := levenshteinSimilarity (generate_phonetic_key h2)
          (generate_phonetic_key e1) * 100
        if best.1 < score then (score, "cross_language", [("hindi", h2), ("english", e1)])
        else best
      else best
    let confidence := if 90 ≤ best.1 then "high"
      else if 75 ≤ best.1 then "medium"
      else "low"
    let exps :=
      if 85 ≤ best.1 then
        ("नाम " ++ formatFixed best.1 0 ++ "% समान है (संभवतः वर्तनी भिन्नता)",
         "Names are " ++ formatFixed best.1 0 ++ "% similar (likely spelling variation)")
      else if 70 ≤ best.1 then
        ("नाम " ++ formatFixed best.1 0 ++ "% समान है (संभावित मिलान)",
         "Names are " ++ formatFixed best.1 0 ++ "% similar (possible match)")
      else
        ("नाम में " ++ formatFixed (100 - best.1) 0 ++ "% अंतर है",
         "Names differ by " ++ formatFixed (100 - best.1) 0 ++ "%")
    { similarity_score := best.1, match_type := best.2.1, confidence := confidence,
      explanation_hindi := exps.1, explanation_english := exps.2,
      details := best.2.2 }

/-! ### Area tolerance (`app/services/area_tolerance.py`) -/

/-- `app.models.discrepancy.Severity`. -/
inductive Severity
  | minor
  | major
  | critical
deriving DecidableEq, Repr

structure AreaComparisonResult where
  «matches» : Bool
  difference_sqm : ℚ
  difference_percent : ℚ
  severity : Option Severity
  explanation : String
  explanation_hindi : String
deriving DecidableEq, Repr

/-- `classify_severity` (tolerances already resolved against settings). -/
def classify_severity (difference_percent tolerance_minor tolerance_major : ℚ) :
    Option Severity :=
  if difference_percent ≤ tolerance_minor then none
  else if difference_percent ≤ tolerance_major then some .minor
  else if difference_percent ≤ 30 then some .major
  else some .critical

/-- `format_area`. -/
def format_area (sqm : ℚ) : String :=
  if 10000 ≤ sqm then formatFixed (sqm / 10000) 2 ++ " hectares"
  else if 100 ≤ sqm then formatFixed sqm 0 ++ " sq.m"
  else formatFixed sqm 2 ++ " sq.m"

/-- `generate_area_explanation`. -/
def generate_area_explanation (computed_sqm recorded_sqm difference_sqm
    difference_percent : ℚ) (severity : Option Severity) : String × String :=
  let computed_str := format_area computed_sqm
  let recorded_str := format_area recorded_sqm
  let diff_str := format_area difference_sqm
  match severity with
  | none =>
    ("Area matches within tolerance. Computed: " ++ computed_str ++
       ", Recorded: " ++ recorded_str,
     "क्षेत्रफल सहिष्णुता के भीतर है। गणना: " ++ computed_str ++ ", दर्ज: " ++ recorded_str)
  | some .minor =>
    ("Minor area difference of " ++ diff_str ++ " (" ++
       formatFixed difference_percent 1 ++ "%). Computed: " ++ computed_str ++
       ", Recorded: " ++ recorded_str ++ ". Likely measurement variation.",
     "मामूली क्षेत्रफल अंतर " ++ diff_str ++ " (" ++ formatFixed difference_percent 1 ++
       "%)। गणना: " ++ computed_str ++ ", दर्ज: " ++ recorded_str ++ "। संभावित माप भिन्नता।")
  | some .major =>
    ("Significant area mismatch of " ++ diff_str ++ " (" ++
       formatFixed difference_percent 1 ++ "%). Computed: " ++ computed_str ++
       ", Recorded: " ++ recorded_str ++ ". Requires verification.",
     "महत्वपूर्ण क्षेत्रफल विसंगति " ++ diff_str ++ " (" ++ formatFixed difference_percent 1 ++
       "%)। गणना: " ++ computed_str ++ ", दर्ज: " ++ recorded_str ++ "। सत्यापन आवश्यक।")
  | some .critical =>
    ("Critical area discrepancy of " ++ diff_str ++ " (" ++
       formatFixed difference_percent 1 ++ "%). Computed: " ++ computed_str ++
       ", Recorded: " ++ recorded_str ++ ". Immediate review required.",
     "गंभीर क्षेत्रफल विसंगति " ++ diff_str ++ " (" ++ formatFixed difference_percent 1 ++
       "%)। गणना: " ++ computed_str ++ ", दर्ज: " ++ recorded_str ++ "। तत्काल समीक्षा आवश्यक।")

/-- `compare_areas`.  The `tolerance_minor`/`tolerance_major` parameters keep
the Python `None` default that falls back to the settings values. -/
def compare_areas (computed_sqm recorded_sqm : Option ℚ)
    (tolerance_minor tolerance_major : Option ℚ) : AreaComparisonResult :=
  let tol_minor := tolerance_minor.getD settings.area_tolerance_minor
  let tol_major := tolerance_major.getD settings.area_tolerance_major
  match computed_sqm, recorded_sqm with
  | none, _ =>
    { «matches» := false, difference_sqm := 0, difference_percent := 0,
      severity := some .major,
      explanation := "Missing area data for comparison",
      explanation_hindi := "क्षेत्रफल की तुलना के लिए डेटा उपलब्ध नहीं है" }
  | _, none =>
    { «matches» := false, difference_sqm := 0, difference_percent := 0,
      severity := some .major,
      explanation := "Missing area data for comparison",
      explanation_hindi := "क्षेत्रफल की तुलना के लिए डेटा उपलब्ध नहीं है" }
  | some computed, some recorded =>
    if computed ≤ 0 ∨ recorded ≤ 0 then
      { «matches» := false, difference_sqm := |computed - recorded|,
        difference_percent := 100, severity := some .critical,
        explanation := "Invalid area value (zero or negative)",
        explanation_hindi := "अमान्य क्षेत्रफल मान (शून्य या ऋणात्मक)" }
    else
      let difference_sqm := |computed - recorded|
      let difference_percent := difference_sqm / recorded * 100
      let severity := classify_severity difference_percent tol_minor tol_major
      let exps := generate_area_explanation computed recorded difference_sqm
        difference_percent severity
      { «matches» := severity.isNone, difference_sqm := round2 difference_sqm,
        difference_percent := round2 difference_percent, severity := severity,
        explanation := exps.1, explanation_hindi := exps.2 }

/-! ### Data model (`app/models/*.py`), rows as records -/

/-- A JSON scalar as it appears in a `details` payload. -/
inductive JsonVal
  | null
  | str (s : String)
  | num (q : ℚ)
  | int (n : Int)
  | strs (xs : List String)
deriving DecidableEq, Repr

/-- The parsed `details` JSON of a discrepancy: the numeric `score` key is
held apart (it is the key the engine reads and writes), the remaining keys
as an ordered association list. -/
structure DiscDetails where
  score : Option Int
  other : List (String × JsonVal)
deriving DecidableEq, Repr

/-- `app.models.parcel.Parcel` (the columns the engine reads). -/
structure Parcel where
  id : Nat
  plot_id : String
  village_code : String
  computed_area_sqm : Option ℚ
deriving DecidableEq, Repr

/-- `app.models.land_record.LandRecord` (the columns the engine reads). -/
structure LandRecord where
  id : Nat
  plot_id : String
  owner_name_hindi : Option String
  owner_name_english : Option String
  recorded_area_sqm : Option ℚ
  is_current : Bool
deriving DecidableEq, Repr

/-- `app.models.discrepancy.Discrepancy`.  Timestamps are `Nat` ticks. -/
structure DiscrepancyRow where
  id : Nat
  parcel_id : Option Nat
  record_id : Option Nat
  plot_id : String
  village_code : Option String
  discrepancy_type : String
  severity : String
  explanation : String
  explanation_hindi : String
  details : Option DiscDetails
  status : String
  resolution_remarks : Option String
  resolved_by : Option String
  created_at : Nat
  updated_at : Nat
  detected_at : Nat
  resolved_at : Option Nat
deriving DecidableEq, Repr

/-- A Python exception raised by the workflow/audit code: the service's own
`WorkflowError`, or a `TypeError` from calling a constructor with an invalid
keyword argument. -/
inductive PyError
  | workflowError (msg : String)
  | typeError (msg : String)
deriving DecidableEq, Repr

/-- `app.models.change_log.ChangeLog`, with exactly the columns the model
declares: the user fields are `user_name` and `user_ip` — there is no
`user_role` and no `ip_address` column. -/
structure ChangeLog where
  id : Nat
  entity_type : String
  entity_id : Nat
  action : String
  old_values : Option (List (String × String))
  new_values : Option (List (String × String))
  user_name : Option String
  user_ip : Option String
  remarks : Option String
  timestamp : Nat
deriving DecidableEq, Repr

/-- The mapped column attributes of `ChangeLog` (the names SQLAlchemy's
default declarative constructor accepts as keyword arguments). -/
def CHANGE_LOG_COLUMNS : List String :=
  ["id", "entity_type", "entity_id", "action", "old_values", "new_values",
   "user_name", "user_ip", "remarks", "timestamp"]

/-- The keyword-argument names `AuditService.log_change` passes to the
`ChangeLog(...)` constructor, in source order. -/
def LOG_CHANGE_KWARGS : List String :=
  ["id", "entity_type", "entity_id", "action", "old_values", "new_values",
   "user_name", "user_role", "remarks", "ip_address", "timestamp"]

/-- The transactional store the services read and write (`db : Session`).
`next_log_id` / `next_disc_id` model `uuid4()` freshness. -/
structure Database where
  parcels : List Parcel
  land_records : List LandRecord
  discrepancies : List DiscrepancyRow
  change_logs : List ChangeLog
  next_log_id : Nat
  next_disc_id : Nat
deriving DecidableEq, Repr

/-! ### Audit service (`app/services/audit_service.py`) -/

set_option linter.unusedVariables false in
/-- `AuditService.log_change` constructs
`ChangeLog(id=..., entity_type=..., entity_id=..., action=..., old_values=...,
new_values=..., user_name=..., user_role=..., remarks=..., ip_address=...,
timestamp=...)`.  `Base = declarative_base()` gives `ChangeLog` SQLAlchemy's
default declarative constructor, which raises `TypeError` on the first
keyword argument that is not a mapped attribute; `user_role` and
`ip_address` are not columns, so every call raises and no audit row is ever
created.  The success branch (reachable only if every keyword argument were
a column) would append the row. -/
def log_change (db : Database) (entity_type : String) (entity_id : Nat)
    (action : String) (old_values new_values : Option (List (String × String)))
    (user_name user_role : String) (remarks : Option String)
    (ip_address : Option String) (now : Nat) :
    Except PyError (Database × ChangeLog) :=
  match LOG_CHANGE_KWARGS.find? (fun k => !(CHANGE_LOG_COLUMNS.contains k)) with
  | some k =>
    .error (.typeError ("\x27" ++ k ++
      "\x27 is an invalid keyword argument for ChangeLog"))
  | none =>
    let entry : ChangeLog :=
      { id := db.next_log_id, entity_type := entity_type,
        entity_id := entity_id, action := action, old_values := old_values,
        new_values := new_values, user_name := some user_name,
        user_ip := none, remarks := remarks, timestamp := now }
    .ok ({ db with change_logs := db.change_logs ++ [entry],
                   next_log_id := db.next_log_id + 1 }, entry)

/-- `log_discrepancy_status_change` (raises whenever `log_change` does). -/
def log_discrepancy_status_change (db : Database) (discrepancy_id : Nat)
    (old_status new_status user_name user_role : String)
    (remarks : Option String) (now : Nat) :
    Except PyError (Database × ChangeLog) :=
  log_change db "discrepancy" discrepancy_id "status_change"
    (some [("status", old_status)]) (some [("status", new_status)])
    user_name user_role remarks none now

/-! ### Workflow service (`app/services/workflow_service.py`) -/

/-- `VALID_TRANSITIONS` (`dict.get(current_status, [])`). -/
def VALID_TRANSITIONS : String → List String
  | "open" => ["under_review", "resolved", "ignored"]
  | "under_review" => ["open", "resolved", "disputed"]
  | "resolved" => ["open"]
  | "disputed" => ["under_review", "resolved"]
  | "ignored" => ["open"]
  | _ => []

/-- `TRANSITION_ROLES` (`dict.get(edge, ['admin'])`). -/
def TRANSITION_ROLES : String → String → List String
  | "open", "under_review" => ["operator", "supervisor", "admin"]
  | "open", "resolved" => ["supervisor", "admin"]
  | "open", "ignored" => ["supervisor", "admin"]
  | "under_review", "open" => ["operator", "supervisor", "admin"]
  | "under_review", "resolved" => ["supervisor", "admin"]
  | "under_review", "disputed" => ["operator", "supervisor", "admin"]
  | "resolved", "open" => ["admin"]
  | "disputed", "under_review" => ["supervisor", "admin"]
  | "disputed", "resolved" => ["admin"]
  | "ignored", "open" => ["supervisor", "admin"]
  | _, _ => ["admin"]

/-- `WorkflowService.can_transition`. -/
def can_transition (current_status new_status user_role : String) :
    Bool × String :=
  if !(VALID_TRANSITIONS current_status).contains new_status then
    (false, "Cannot transition from \x27" ++ current_status ++ "\x27 to \x27" ++
      new_status ++ "\x27")
  else if !(TRANSITION_ROLES current_status new_status).contains user_role then
    (false, "Role \x27" ++ user_role ++ "\x27 cannot make this transition")
  else
    (true, "Transition allowed")

/-- `WorkflowService.transition_status`.  A raised exception is an
`Except.error`; an error result means nothing was committed: the workflow
checks raise before any mutation, and on a permitted transition the audit
write (`log_discrepancy_status_change`) raises `TypeError` before
`db.commit()` runs, so the in-memory status change is never persisted and
the function never returns the updated row. -/
def transition_status (db : Database) (discrepancy_id : Nat)
    (new_status user_name user_role : String) (remarks : Option String)
    (now : Nat) : Except PyError (Database × DiscrepancyRow) :=
  match db.discrepancies.find? (fun d => d.id == discrepancy_id) with
  | none =>
    .error (.workflowError
      ("Discrepancy " ++ toString discrepancy_id ++ " not found"))
  | some disc =>
    let old_status := disc.status
    let allowed := can_transition old_status new_status user_role
    if !allowed.1 then .error (.workflowError allowed.2)
    else
      let disc := { disc with status := new_status, updated_at := now }
      let disc := if new_status = "resolved" then
          { disc with
            resolved_at := some now
            resolved_by := some user_name
            resolution_remarks := if pyTruthyStr remarks then remarks
              else disc.resolution_remarks }
        else disc
      let discs := replaceFirst (fun d => d.id == discrepancy_id) disc
        db.discrepancies
      let db := { db with discrepancies := discs }
      match log_discrepancy_status_change db discrepancy_id old_status
        new_status user_name user_role remarks now with
      | .error e => .error e
      | .ok logged => .ok (logged.1, disc)

/-- Aggregate counters returned by `bulk_transition`. -/
structure BulkStats where
  success : Nat
  failed : Nat
  skipped : Nat
deriving DecidableEq, Repr

/-- The loop body of `WorkflowService.bulk_transition` for one id: a raised
`WorkflowError` and any other exception (here the audit `TypeError`) are
both caught and counted as `failed`. -/
def bulk_step (new_status user_name user_role : String)
    (remarks : Option String) (now : Nat) (acc : BulkStats × Database)
    (disc_id : Nat) : BulkStats × Database :=
  let stats := acc.1
  let db := acc.2
  match db.discrepancies.find? (fun d => d.id == disc_id) with
  | none => ({ stats with skipped := stats.skipped + 1 }, db)
  | some disc =>
    if !(can_transition disc.status new_status user_role).1 then
      ({ stats with skipped := stats.skipped + 1 }, db)
    else
      match transition_status db disc_id new_status user_name user_role
        remarks now with
      | .ok out => ({ stats with success := stats.success + 1 }, out.1)
      | .error _ => ({ stats with failed := stats.failed + 1 }, db)

/-- `WorkflowService.bulk_transition`: every id is processed independently,
a failing id never aborts the batch. -/
def bulk_transition (db : Database) (discrepancy_ids : List Nat)
    (new_status user_name user_role : String) (remarks : Option String)
    (now : Nat) : BulkStats × Database :=
  discrepancy_ids.foldl (bulk_step new_status user_name user_role remarks now)
    (⟨0, 0, 0⟩, db)

/-! ### Enhanced discrepancy engine (`app/services/enhanced_discrepancy_engine.py`) -/

/-- The `disc_data` dict a detection check produces. -/
structure DiscData where
  type : String
  plot_id : String
  parcel_id : Option Nat
  record_id : Option Nat
  severity : String
  score : Int
  explanation : String
  explanation_hindi : String
  details : List (String × JsonVal)
deriving DecidableEq, Repr

/-- The open/under-review lookup predicate of the upsert. -/
def openPairPred (plot_id disc_type : String) (d : DiscrepancyRow) : Bool :=
  d.plot_id == plot_id && d.discrepancy_type == disc_type &&
    (d.status == "open" || d.status == "under_review")

/-- `EnhancedDiscrepancyEngine._create_or_update_discrepancy`: returns
`"new"`, `"updated"` or `"unchanged"` together with the evolved store. -/
def _create_or_update_discrepancy (db : Database) (disc_data : DiscData)
    (now : Nat) : String × Database :=
  match db.discrepancies.find? (openPairPred disc_data.plot_id disc_data.type) with
  | some existing =>
    let details_dict := existing.details.getD ⟨none, []⟩
    let old_score := details_dict.score.getD 0
    if 5 < |old_score - disc_data.score| then
      let updated := { existing with
        severity := disc_data.severity
        explanation := disc_data.explanation
        explanation_hindi := disc_data.explanation_hindi
        details := some ⟨some disc_data.score,
          dictUpdate details_dict.other disc_data.details⟩
        updated_at := now }
      let discs := replaceFirst (openPairPred disc_data.plot_id disc_data.type)
        updated db.discrepancies
      ("updated", { db with discrepancies := discs })
    else ("unchanged", db)
  | none =>
    let new_disc : DiscrepancyRow :=
      { id := db.next_disc_id, parcel_id := disc_data.parcel_id,
        record_id := disc_data.record_id, plot_id := disc_data.plot_id,
        village_code := none, discrepancy_type := disc_data.type,
        severity := disc_data.severity, explanation := disc_data.explanation,
        explanation_hindi := disc_data.explanation_hindi,
        details := some ⟨some disc_data.score, disc_data.details⟩,
        status := "open", resolution_remarks := none, resolved_by := none,
        created_at := now, updated_at := now, detected_at := now,
        resolved_at := none }
    ("new", { db with discrepancies := db.discrepancies ++ [new_disc],
                      next_disc_id := db.next_disc_id + 1 })

/-- The mutable `stats` dict of `run_detection`. -/
structure DetectionStats where
  parcels_checked : Nat
  records_checked : Nat
  new_discrepancies : Nat
  updated_discrepancies : Nat
  resolved_discrepancies : Nat
  by_type : List (String × Nat)
  by_severity_critical : Nat
  by_severity_major : Nat
  by_severity_minor : Nat
deriving DecidableEq, Repr

/-- `stats['by_type'][t] = stats['by_type'].get(t, 0) + 1`. -/
def bump_by_type (stats : DetectionStats) (t : String) : DetectionStats :=
  if stats.by_type.any (fun kv => kv.1 == t) then
    { stats with by_type := stats.by_type.map (fun kv =>
        if kv.1 == t then (kv.1, kv.2 + 1) else kv) }
  else
    { stats with by_type := stats.by_type ++ [(t, 1)] }

/-- `stats['by_severity'][sev] += 1` (severity is always one of the three
keys the dict is initialised with). -/
def bump_by_severity (stats : DetectionStats) (sev : String) : DetectionStats :=
  if sev == "critical" then
    { stats with by_severity_critical := stats.by_severity_critical + 1 }
  else if sev == "major" then
    { stats with by_severity_major := stats.by_severity_major + 1 }
  else
    { stats with by_severity_minor := stats.by_severity_minor + 1 }

/-- The per-verdict body of the parcel loop of `run_detection` (counts both
`new` and `updated` results). -/
def detect_step_main (now : Nat) (acc : DetectionStats × Database)
    (disc_data : DiscData) : DetectionStats × Database :=
  let out := _create_or_update_discrepancy acc.2 disc_data now
  let stats := if out.1 == "new" then
      { acc.1 with new_discrepancies := acc.1.new_discrepancies + 1 }
    else if out.1 == "updated" then
      { acc.1 with updated_discrepancies := acc.1.updated_discrepancies + 1 }
    else acc.1
  let stats := bump_by_type stats disc_data.type
  (bump_by_severity stats disc_data.severity, out.2)

/-- The per-verdict body of the orphan-record and duplicate loops of
`run_detection` (these loops count only `new` results and bump `by_type`
under a fixed key). -/
def detect_step_aux (type_key : String) (now : Nat)
    (acc : DetectionStats × Database) (disc_data : DiscData) :
    DetectionStats × Database :=
  let out := _create_or_update_discrepancy acc.2 disc_data now
  let stats := if out.1 == "new" then
      { acc.1 with new_discrepancies := acc.1.new_discrepancies + 1 }
    else acc.1
  let stats := bump_by_type stats type_key
  (bump_by_severity stats disc_data.severity, out.2)

/-- The `get_score` helper of `get_priority_queue`: default 50 when the
details payload or its `score` key is absent. -/
def get_score_of (d : DiscrepancyRow) : Int :=
  match d.details with
  | none => 50
  | some dd => dd.score.getD 50

/-- Stable insertion for descending-score order: an element goes after every
element with a score at least as high (Python's stable `sorted(...,
reverse=True)`). -/
def insert_desc (x : DiscrepancyRow) : List DiscrepancyRow → List DiscrepancyRow
  | [] => [x]
  | y :: ys => if get_score_of y ≤ get_score_of x then x :: y :: ys
    else y :: insert_desc x ys

/-- `sorted(discrepancies, key=get_score, reverse=True)`. -/
def sort_by_score_desc (l : List DiscrepancyRow) : List DiscrepancyRow :=
  l.foldr insert_desc []

/-- One row of the priority queue response. -/
structure PriorityItem where
  id : String
  plot_id : String
  type : String
  severity : String
  status : String
  score : Int
  explanation : String
  explanation_hindi : String
  details : Option DiscDetails
  created_at : Option Nat
deriving DecidableEq, Repr

/-- `EnhancedDiscrepancyEngine.get_priority_queue`. -/
def get_priority_queue (db : Database) (village_code : Option String)
    (limit : Nat) : List PriorityItem :=
  let q := db.discrepancies.filter (fun d =>
    d.status == "open" || d.status == "under_review")
  let q := match village_code with
    | some vc => q.filter (fun d => d.plot_id.startsWith vc)
    | none => q
  let sorted_discs := sort_by_score_desc q
  (sorted_discs.take limit).map (fun d =>
    { id := toString d.id, plot_id := d.plot_id, type := d.discrepancy_type,
      severity := d.severity, status := d.status, score := get_score_of d,
      explanation := d.explanation, explanation_hindi := d.explanation_hindi,
      details := d.details, created_at := some d.created_at })

/-! ### Concrete stores used by the counterexamples -/

/-- An open discrepancy row with default-score details and timestamp 1. -/
def tieRowA : DiscrepancyRow :=
  { id := 1, parcel_id := none, record_id := none, plot_id := "V001-001",
    village_code := none, discrepancy_type := "area_mismatch",
    severity := "minor", explanation := "", explanation_hindi := "",
    details := none, status := "open", resolution_remarks := none,
    resolved_by := none, created_at := 1, updated_at := 1, detected_at := 1,
    resolved_at := none }

/-- A second open row, same (default) score, later detection timestamp. -/
def tieRowB : DiscrepancyRow :=
  { tieRowA with
    id := 2
    created_at := 10
    updated_at := 10
    detected_at := 10 }

/-- Store with two equal-score open discrepancies, older row first. -/
def tieDb : Database :=
  { parcels := [], land_records := [], discrepancies := [tieRowA, tieRowB],
    change_logs := [], next_log_id := 0, next_disc_id := 0 }

/-- An open discrepancy row (id 7) for the workflow stores. -/
def wfRowOpen : DiscrepancyRow :=
  { id := 7, parcel_id := none, record_id := none, plot_id := "V001-002",
    village_code := none, discrepancy_type := "area_mismatch",
    severity := "minor", explanation := "", explanation_hindi := "",
    details := none, status := "open", resolution_remarks := none,
    resolved_by := none, created_at := 0, updated_at := 0, detected_at := 0,
    resolved_at := none }

/-- A store holding one open discrepancy (id 7) and an empty audit log. -/
def wfDb : Database :=
  { parcels := [], land_records := [], discrepancies := [wfRowOpen],
    change_logs := [], next_log_id := 0, next_disc_id := 0 }

/-- Store for the five-id bulk batch: open rows 7, 8, 9 and a resolved row
10 (resolved→resolved is not an edge); id 101 is absent. -/
def bulkDb : Database :=
  { parcels := [], land_records := [],
    discrepancies := [wfRowOpen, { wfRowOpen with id := 8 },
      { wfRowOpen with id := 9 },
      { wfRowOpen with
        id := 10
        status := "resolved" }],
    change_logs := [], next_log_id := 0, next_disc_id := 0 }

/-! ## Theorems -/

/-- Clamp-and-tier arithmetic shared by the severity-scorer theorem. -/
theorem severityScore_clamp_cases (raw : Int) :
    (0 ≤ max 0 (min 100 raw) ∧ max 0 (min 100 raw) ≤ 100) ∧
    (((if 80 ≤ max 0 (min 100 raw) then DiscrepancySeverity.critical
       else if 50 ≤ max 0 (min 100 raw) then DiscrepancySeverity.major
       else DiscrepancySeverity.minor) = DiscrepancySeverity.critical) ↔
      80 ≤ max 0 (min 100 raw)) ∧
    (((if 80 ≤ max 0 (min 100 raw) then DiscrepancySeverity.critical
       else if 50 ≤ max 0 (min 100 raw) then DiscrepancySeverity.major
       else DiscrepancySeverity.minor) = DiscrepancySeverity.major) ↔
      50 ≤ max 0 (min 100 raw) ∧ max 0 (min 100 raw) < 80) ∧
    (((if 80 ≤ max 0 (min 100 raw) then DiscrepancySeverity.critical
       else if 50 ≤ max 0 (min 100 raw) then DiscrepancySeverity.major
       else DiscrepancySeverity.minor) = DiscrepancySeverity.minor) ↔
      max 0 (min 100 raw) < 50) ∧
    (100 - max 0 (min 100 raw) : Int) = 100 - max 0 (min 100 raw) := by
  refine ⟨⟨by omega, by omega⟩, ?_, ?_, ?_, rfl⟩
  all_goals split_ifs <;> simp_all <;> omega

/-- C4: for every severity-score computation, the total score is clamped to
[0,100]; the tier is critical exactly when the clamped score is ≥ 80 (a
score of exactly 80 is critical), major exactly when it is in [50,80) (79 is
major), minor otherwise; and the priority rank is 100 minus the clamped
score, so rank 0 is most urgent. -/
theorem compute_severity_score_clamped_tiers_rank (discrepancy_type : String)
    (area_computed area_recorded name_similarity : Option ℚ)
    (has_geometry has_record has_father_name : Bool)
    (previous_occurrences : Nat) (was_resolved_before : Bool) :
    (0 ≤ (compute_severity_score discrepancy_type area_computed
        area_recorded name_similarity has_geometry has_record has_father_name
        previous_occurrences was_resolved_before).total_score ∧
      (compute_severity_score discrepancy_type area_computed
        area_recorded name_similarity has_geometry has_record has_father_name
        previous_occurrences was_resolved_before).total_score ≤ 100) ∧
    ((compute_severity_score discrepancy_type area_computed
        area_recorded name_similarity has_geometry has_record has_father_name
        previous_occurrences was_resolved_before).severity = .critical ↔
      80 ≤ (compute_severity_score discrepancy_type area_computed
        area_recorded name_similarity has_geometry has_record has_father_name
        previous_occurrences was_resolved_before).total_score) ∧
    ((compute_severity_score discrepancy_type area_computed
        area_recorded name_similarity has_geometry has_record has_father_name
        previous_occurrences was_resolved_before).severity = .major ↔
      50 ≤ (compute_severity_score discrepancy_type area_computed
        area_recorded name_similarity has_geometry has_record has_father_name
        previous_occurrences was_resolved_before).total_score ∧
      (compute_severity_score discrepancy_type area_computed
        area_recorded name_similarity has_geometry has_record has_father_name
        previous_occurrences was_resolved_before).total_score < 80) ∧
    ((compute_severity_score discrepancy_type area_computed
        area_recorded name_similarity has_geometry has_record has_father_name
        previous_occurrences was_resolved_before).severity = .minor ↔
      (compute_severity_score discrepancy_type area_computed
        area_recorded name_similarity has_geometry has_record has_father_name
        previous_occurrences was_resolved_before).total_score < 50) ∧
    (compute_severity_score discrepancy_type area_computed
        area_recorded name_similarity has_geometry has_record has_father_name
        previous_occurrences was_resolved_before).priority_rank =
      100 - (compute_severity_score discrepancy_type area_computed
        area_recorded name_similarity has_geometry has_record has_father_name
        previous_occurrences was_resolved_before).total_score := by
  dsimp only [compute_severity_score]
  exact severityScore_clamp_cases _

/-- C5: for strictly positive areas and any tolerance configuration,
`compare_areas` computes the percentage difference relative to the recorded
value and classifies it through the ordered bands minor-tolerance / major-
tolerance / 30 / critical; `compare(100, 80)` gives 25.0 and MAJOR under the
default 5/15 bands, and `compare(100, 100)` matches with no severity. -/
theorem compare_areas_relative_bands (computed recorded : ℚ)
    (tolerance_minor tolerance_major : Option ℚ) :
    (0 < computed ∧ 0 < recorded →
      (compare_areas (some computed) (some recorded) tolerance_minor
          tolerance_major).difference_percent =
        round2 (|computed - recorded| / recorded * 100) ∧
      (compare_areas (some computed) (some recorded) tolerance_minor
          tolerance_major).severity =
        classify_severity (|computed - recorded| / recorded * 100)
          (tolerance_minor.getD settings.area_tolerance_minor)
          (tolerance_major.getD settings.area_tolerance_major) ∧
      (compare_areas (some computed) (some recorded) tolerance_minor
          tolerance_major).«matches» =
        decide (classify_severity (|computed - recorded| / recorded * 100)
          (tolerance_minor.getD settings.area_tolerance_minor)
          (tolerance_major.getD settings.area_tolerance_major) = none)) ∧
    (∀ dp tmin tmaj : ℚ,
      (dp ≤ tmin → classify_severity dp tmin tmaj = none) ∧
      (tmin < dp → dp ≤ tmaj → classify_severity dp tmin tmaj = some .minor) ∧
      (tmin < dp → tmaj < dp → dp ≤ 30 →
        classify_severity dp tmin tmaj = some .major) ∧
      (tmin < dp → tmaj < dp → 30 < dp →
        classify_severity dp tmin tmaj = some .critical)) ∧
    (compare_areas (some 100) (some 80) none none).difference_percent = 25 ∧
    (compare_areas (some 100) (some 80) none none).severity = some .major ∧
    (compare_areas (some 100) (some 100) none none).«matches» = true ∧
    (compare_areas (some 100) (some 100) none none).severity = none := by
  refine ⟨?_, ?_, by with_unfolding_all decide, by with_unfolding_all decide,
    by with_unfolding_all decide, by with_unfolding_all decide⟩
  · rintro ⟨hc, hr⟩
    have hpos : ¬(computed ≤ 0 ∨ recorded ≤ 0) := by push_neg; exact ⟨hc, hr⟩
    simp only [compare_areas, if_neg hpos]
    refine ⟨by trivial, by trivial, ?_⟩
    cases h : classify_severity (|computed - recorded| / recorded * 100)
      (tolerance_minor.getD settings.area_tolerance_minor)
      (tolerance_major.getD settings.area_tolerance_major) <;> simp [h]
  · intro dp tmin tmaj
    refine ⟨?_, ?_, ?_, ?_⟩ <;> intros <;> unfold classify_severity <;>
      split_ifs <;> first | rfl | (exfalso; linarith)

/-- C6: `compare_areas` never fails on degenerate input: an absent value
yields a non-matching forced-MAJOR result with the dedicated missing-data
explanation, and non-positive values yield a non-matching forced-CRITICAL
result; the two fallback explanations are distinct. -/
theorem compare_areas_degenerate_fallbacks (computed_sqm recorded_sqm
    tolerance_minor tolerance_major : Option ℚ) :
    ((computed_sqm = none ∨ recorded_sqm = none) →
      let res := compare_areas computed_sqm recorded_sqm tolerance_minor
        tolerance_major
      res.«matches» = false ∧ res.severity = some .major ∧
      res.explanation = "Missing area data for comparison") ∧
    (∀ c r : ℚ, computed_sqm = some c → recorded_sqm = some r →
      (c ≤ 0 ∨ r ≤ 0) →
      let res := compare_areas computed_sqm recorded_sqm tolerance_minor
        tolerance_major
      res.«matches» = false ∧ res.severity = some .critical ∧
      res.explanation = "Invalid area value (zero or negative)") ∧
    ("Missing area data for comparison" : String) ≠
      "Invalid area value (zero or negative)" := by
  refine ⟨?_, ?_, by decide⟩
  · rintro (h | h)
    · subst h
      cases recorded_sqm <;> exact ⟨rfl, rfl, rfl⟩
    · subst h
      cases computed_sqm <;> exact ⟨rfl, rfl, rfl⟩
  · rintro c r hc hr hnp
    subst hc; subst hr
    simp only [compare_areas, if_pos hnp]
    refine ⟨?_, ?_, ?_⟩ <;> trivial

/-- C10: on every input — absent values, non-positive values, any tolerance
configuration — `compare_areas` reports `matches = true` exactly when it
assigns no severity. -/
theorem compare_areas_matches_iff_no_severity (computed_sqm recorded_sqm
    tolerance_minor tolerance_major : Option ℚ) :
    (compare_areas computed_sqm recorded_sqm tolerance_minor
      tolerance_major).«matches» = true ↔
    (compare_areas computed_sqm recorded_sqm tolerance_minor
      tolerance_major).severity = none := by
  cases computed_sqm with
  | none => simp [compare_areas]
  | some c =>
    cases recorded_sqm with
    | none => simp [compare_areas]
    | some r =>
      simp only [compare_areas]
      split_ifs <;> simp

set_option maxRecDepth 8000 in
/-- C9: whenever the two script-1 (Hindi) names normalise to the same
non-empty string, `compare_names` short-circuits at the exact-Hindi strategy
with score exactly 100 (never reaching the fuzzy, phonetic or cross-script
strategies); in particular on the pair "राम शर्मा" / "राम शर्मा". -/
theorem compare_names_exact_hindi_short_circuit :
    (∀ name1_hindi name1_english name2_hindi name2_english : Option String,
      normalize_hindi (name1_hindi.getD "") ≠ "" →
      normalize_hindi (name1_hindi.getD "") =
        normalize_hindi (name2_hindi.getD "") →
      compare_names name1_hindi name1_english name2_hindi name2_english =
        { similarity_score := 100, match_type := "exact_hindi",
          confidence := "high",
          explanation_hindi := "हिंदी नाम पूर्णतः मेल खाता है",
          explanation_english := "Hindi names match exactly",
          details := [("matched_value", normalize_hindi (name1_hindi.getD ""))] }) ∧
    compare_names (some "राम शर्मा") none (some "राम शर्मा") none =
      { similarity_score := 100, match_type := "exact_hindi",
        confidence := "high",
        explanation_hindi := "हिंदी नाम पूर्णतः मेल खाता है",
        explanation_english := "Hindi names match exactly",
        details := [("matched_value", "राम शर्मा")] } := by
  constructor
  · intro n1h n1e n2h n2e hne heq
    have h2ne : normalize_hindi (n2h.getD "") ≠ "" := heq ▸ hne
    have hcond : (normalize_hindi (n1h.getD "") != "" &&
        normalize_hindi (n2h.getD "") != "" &&
        normalize_hindi (n1h.getD "") == normalize_hindi (n2h.getD "")) = true := by
      simp only [Bool.and_eq_true, bne_iff_ne, ne_eq, beq_iff_eq]
      exact ⟨⟨hne, h2ne⟩, heq⟩
    simp only [compare_names, hcond, if_true]
  · with_unfolding_all decide

/-- C2 (code bug): the claimed failure cases do hold — a missing
discrepancy, an edge absent from the transition table, or an actor outside
the edge's whitelist each raise a `WorkflowError` with no mutation and no
audit write, and open→resolved is rejected for an operator while its edge
admits a supervisor — but the claimed success behaviour never happens: the
`ChangeLog` model has no `user_role` or `ip_address` column, so on every
permitted transition the audit write raises `TypeError` before
`db.commit()`; the status change is never committed and no `status_change`
audit entry is ever written (shown concretely for open→resolved by a
supervisor on `wfDb`). -/
theorem transition_status_audit_write_crashes (db : Database) (i : Nat)
    (new_status user_name user_role : String) (remarks : Option String)
    (now : Nat) :
    (db.discrepancies.find? (fun d => d.id == i) = none →
      ∃ msg, transition_status db i new_status user_name user_role remarks now
        = .error (.workflowError msg)) ∧
    (∀ d, db.discrepancies.find? (fun d => d.id == i) = some d →
      (VALID_TRANSITIONS d.status).contains new_status = false →
      ∃ msg, transition_status db i new_status user_name user_role remarks now
        = .error (.workflowError msg)) ∧
    (∀ d, db.discrepancies.find? (fun d => d.id == i) = some d →
      (VALID_TRANSITIONS d.status).contains new_status = true →
      (TRANSITION_ROLES d.status new_status).contains user_role = false →
      ∃ msg, transition_status db i new_status user_name user_role remarks now
        = .error (.workflowError msg)) ∧
    (∀ d, db.discrepancies.find? (fun d => d.id == i) = some d →
      (VALID_TRANSITIONS d.status).contains new_status = true →
      (TRANSITION_ROLES d.status new_status).contains user_role = true →
      transition_status db i new_status user_name user_role remarks now =
        .error (.typeError
          "\x27user_role\x27 is an invalid keyword argument for ChangeLog")) ∧
    (can_transition "open" "resolved" "operator").1 = false ∧
    (can_transition "open" "resolved" "supervisor").1 = true ∧
    transition_status wfDb 7 "resolved" "carol" "supervisor" (some "fixed") 5
      = .error (.typeError
        "\x27user_role\x27 is an invalid keyword argument for ChangeLog") := by
  refine ⟨?_, ?_, ?_, ?_, by decide, by decide, by rfl⟩
  · intro hfind
    refine ⟨"Discrepancy " ++ toString i ++ " not found", ?_⟩
    simp only [transition_status, hfind]
  · intro d hfind hcont
    refine ⟨"Cannot transition from \x27" ++ d.status ++ "\x27 to \x27" ++
      new_status ++ "\x27", ?_⟩
    simp at hcont
    simp [transition_status, hfind, can_transition, hcont]
  · intro d hfind hcont hrole
    refine ⟨"Role \x27" ++ user_role ++ "\x27 cannot make this transition", ?_⟩
    simp at hcont hrole
    simp [transition_status, hfind, can_transition, hcont, hrole]
  · intro d hfind hcont hrole
    simp at hcont hrole
    simp only [transition_status, hfind]
    rw [if_neg (by simp [can_transition, hcont, hrole])]
    rfl

/-- `transition_status` can never return `.ok`: a failed check raises a
`WorkflowError`, and every permitted transition raises `TypeError` inside
the audit write. -/
theorem transition_status_is_error (db : Database) (i : Nat)
    (new_status user_name user_role : String) (remarks : Option String)
    (now : Nat) :
    ∃ e, transition_status db i new_status user_name user_role remarks now =
      .error e := by
  unfold transition_status
  cases h : db.discrepancies.find? (fun d => d.id == i) with
  | none => exact ⟨_, rfl⟩
  | some d =>
    simp only [h]
    split_ifs <;> exact ⟨_, rfl⟩

/-- A bulk-transition step never changes the store: skipped ids are not
touched and permitted ids fail inside the audit write, which is caught. -/
theorem bulk_step_db (new_status user_name user_role : String)
    (remarks : Option String) (now : Nat) (acc : BulkStats × Database)
    (j : Nat) :
    (bulk_step new_status user_name user_role remarks now acc j).2 =
      acc.2 := by
  cases h : acc.2.discrepancies.find? (fun d => d.id == j) with
  | none => simp only [bulk_step, h]
  | some d =>
    obtain ⟨e, he⟩ := transition_status_is_error acc.2 j new_status
      user_name user_role remarks now
    simp only [bulk_step, h, he]
    split_ifs <;> rfl

/-- Each bulk-transition step settles exactly one id: it increments exactly
one of the three counters. -/
theorem bulk_step_sum (new_status user_name user_role : String)
    (remarks : Option String) (now : Nat) (acc : BulkStats × Database)
    (j : Nat) :
    (bulk_step new_status user_name user_role remarks now acc j).1.success +
      (bulk_step new_status user_name user_role remarks now acc j).1.failed +
      (bulk_step new_status user_name user_role remarks now acc j).1.skipped =
      acc.1.success + acc.1.failed + acc.1.skipped + 1 := by
  unfold bulk_step
  cases h : acc.2.discrepancies.find? (fun d => d.id == j) with
  | none => simp [h]; omega
  | some d =>
    simp only [h]
    split_ifs
    · simp; omega
    · cases h2 : transition_status acc.2 j new_status user_name user_role
        remarks now <;> simp <;> omega

/-- Folding the bulk-transition step over a batch adds the batch size to the
counter total. -/
theorem bulk_fold_sum (new_status user_name user_role : String)
    (remarks : Option String) (now : Nat) (ids : List Nat) :
    ∀ acc : BulkStats × Database,
      (ids.foldl (bulk_step new_status user_name user_role remarks now)
        acc).1.success +
      (ids.foldl (bulk_step new_status user_name user_role remarks now)
        acc).1.failed +
      (ids.foldl (bulk_step new_status user_name user_role remarks now)
        acc).1.skipped =
      acc.1.success + acc.1.failed + acc.1.skipped + ids.length := by
  induction ids with
  | nil => intro acc; simp
  | cons j tl ih =>
    intro acc
    simp only [List.foldl_cons, List.length_cons]
    rw [ih]
    have h := bulk_step_sum new_status user_name user_role remarks now acc j
    omega

/-- Folding the bulk-transition step over a batch never changes the store:
each step either skips its id or catches the error `transition_status`
raises. -/
theorem bulk_fold_db (new_status user_name user_role : String)
    (remarks : Option String) (now : Nat) (ids : List Nat) :
    ∀ acc : BulkStats × Database,
      (ids.foldl (bulk_step new_status user_name user_role remarks now)
        acc).2 = acc.2 := by
  induction ids with
  | nil => intro acc; rfl
  | cons j tl ih =>
    intro acc
    simp only [List.foldl_cons]
    rw [ih]
    exact bulk_step_db new_status user_name user_role remarks now acc j

/-- C8: `bulk_transition` processes every id — the three counters sum to the
batch size for every input, the per-id `except` handlers catching both the
`WorkflowError` of a skipped check and the `TypeError` the audit write
raises on every permitted transition, so the batch never aborts — a step
that skips an id (entity missing or transition not permitted) leaves the
store unchanged, and in fact the whole batch leaves the store, in
particular its audit log, unchanged, since permitted ids crash before the
commit and land in `failed`; on the store with open rows 7, 8, 9, a
resolved row 10 and no row 101, a supervisor resolving all five gets
success 0, failed 3, skipped 2. -/
theorem bulk_transition_counts_and_skips (db : Database) (ids : List Nat)
    (new_status user_name user_role : String) (remarks : Option String)
    (now : Nat) :
    ((bulk_transition db ids new_status user_name user_role remarks
        now).1.success +
      (bulk_transition db ids new_status user_name user_role remarks
        now).1.failed +
      (bulk_transition db ids new_status user_name user_role remarks
        now).1.skipped = ids.length) ∧
    (∀ (st : BulkStats) (db0 : Database) (j : Nat),
      (bulk_step new_status user_name user_role remarks now (st, db0)
          j).1.skipped ≠ st.skipped →
      (bulk_step new_status user_name user_role remarks now (st, db0) j).2 =
        db0) ∧
    ((bulk_transition db ids new_status user_name user_role remarks
        now).2 = db) ∧
    ((bulk_transition bulkDb [7, 8, 9, 10, 101] "resolved" "erin"
        "supervisor" none 5).1 = ⟨0, 3, 2⟩) := by
  refine ⟨?_, ?_, ?_, by decide⟩
  · have h := bulk_fold_sum new_status user_name user_role remarks now ids
      (⟨0, 0, 0⟩, db)
    simpa [bulk_transition] using h
  · intro st db0 j hskip
    revert hskip
    unfold bulk_step
    cases h : db0.discrepancies.find? (fun d => d.id == j) with
    | none => simp [h]
    | some d =>
      simp only [h]
      split_ifs
      · simp
      · cases h2 : transition_status db0 j new_status user_name user_role
          remarks now <;> simp
  · exact bulk_fold_db new_status user_name user_role remarks now ids
      (⟨0, 0, 0⟩, db)

/-- Membership through the stable descending insertion. -/
theorem mem_insert_desc (x y : DiscrepancyRow) :
    ∀ l : List DiscrepancyRow, y ∈ insert_desc x l → y = x ∨ y ∈ l := by
  intro l
  induction l with
  | nil => intro h; simpa [insert_desc] using h
  | cons z zs ih =>
    intro h
    unfold insert_desc at h
    split_ifs at h
    · rw [List.mem_cons] at h
      rcases h with h | h
      · exact .inl h
      · exact .inr h
    · rw [List.mem_cons] at h
      rcases h with h | h
      · exact .inr (by simp [h])
      · rcases ih h with h' | h'
        · exact .inl h'
        · exact .inr (List.mem_cons_of_mem _ h')

/-- Membership through the stable descending sort. -/
theorem mem_sort_by_score_desc (y : DiscrepancyRow) :
    ∀ l : List DiscrepancyRow, y ∈ sort_by_score_desc l → y ∈ l := by
  intro l
  induction l with
  | nil => intro h; simp [sort_by_score_desc] at h
  | cons z zs ih =>
    intro h
    simp only [sort_by_score_desc, List.foldr_cons] at h
    rcases mem_insert_desc z y _ h with h' | h'
    · simp [h']
    · exact List.mem_cons_of_mem _
        (ih (by simpa [sort_by_score_desc] using h'))

/-- Inserting into a descending-score chain keeps it descending. -/
theorem chain_insert_desc (x : DiscrepancyRow) :
    ∀ l : List DiscrepancyRow,
      l.Chain' (fun a b => get_score_of b ≤ get_score_of a) →
      (insert_desc x l).Chain'
        (fun a b => get_score_of b ≤ get_score_of a) := by
  intro l
  induction l with
  | nil => intro _; simp [insert_desc]
  | cons z zs ih =>
    intro h
    unfold insert_desc
    split_ifs with hz
    · exact h.cons hz
    · have htail := ih h.tail
      rw [List.chain'_cons']
      refine ⟨?_, htail⟩
      intro w hw
      cases zs with
      | nil =>
        simp [insert_desc] at hw
        subst hw
        omega
      | cons u us =>
        unfold insert_desc at hw
        split_ifs at hw with hu
        · simp at hw
          subst hw
          omega
        · simp at hw
          subst hw
          exact (List.chain'_cons.mp h).1

/-- The stable sort of the priority queue is descending in score. -/
theorem chain_sort_by_score_desc (l : List DiscrepancyRow) :
    (sort_by_score_desc l).Chain'
      (fun a b => get_score_of b ≤ get_score_of a) := by
  induction l with
  | nil => simp [sort_by_score_desc]
  | cons z zs ih => exact chain_insert_desc z _ ih

/-- C7 (amended): the priority queue returns only open/under-review
discrepancies, at most `limit` of them, sorted by score descending; ties are
returned in the underlying query order (Python's stable sort) — there is no
timestamp tie-break. -/
theorem get_priority_queue_filtered_sorted (db : Database)
    (village_code : Option String) (limit : Nat) :
    (∀ it ∈ get_priority_queue db village_code limit,
      it.status = "open" ∨ it.status = "under_review") ∧
    (get_priority_queue db village_code limit).length ≤ limit ∧
    (get_priority_queue db village_code limit).Chain'
      (fun a b => b.score ≤ a.score) := by
  refine ⟨?_, ?_, ?_⟩
  · intro it hit
    simp only [get_priority_queue, List.mem_map] at hit
    obtain ⟨d, hd, hdit⟩ := hit
    have hd' := List.mem_of_mem_take hd
    have hmem := mem_sort_by_score_desc d _ hd'
    have hstat : (d.status == "open" || d.status == "under_review") = true := by
      cases village_code with
      | none => exact (List.mem_filter.mp hmem).2
      | some vc =>
        exact (List.mem_filter.mp (List.mem_filter.mp hmem).1).2
    subst hdit
    simpa using hstat
  · simp only [get_priority_queue, List.length_map]
    exact (List.length_take_le _ _)
  · simp only [get_priority_queue]
    rw [List.chain'_map]
    exact (chain_sort_by_score_desc _).take _

/-- C7 (counterexample, as stated): on `tieDb` the two open rows tie on
score 50 but come back in store order — detection timestamps 1 then 10 —
so the output is not sorted by (score desc, detection timestamp desc). -/
theorem get_priority_queue_no_timestamp_tiebreak :
    ¬ ((get_priority_queue tieDb none 50).Chain' (fun a b =>
      b.score < a.score ∨
      (b.score = a.score ∧ b.created_at.getD 0 ≤ a.created_at.getD 0))) := by
  intro h
  have hmap := (List.chain'_map
    (R := fun x y : Int × Nat => y.1 < x.1 ∨ (y.1 = x.1 ∧ y.2 ≤ x.2))
    (fun it : PriorityItem => (it.score, it.created_at.getD 0))).mpr h
  have hq : (get_priority_queue tieDb none 50).map
      (fun it => (it.score, it.created_at.getD 0)) =
      [((50 : Int), (1 : Nat)), (50, 10)] := by
    with_unfolding_all rfl
  rw [hq] at hmap
  have hrel := (List.chain'_cons.mp hmap).1
  rcases hrel with hlt | ⟨_, hle⟩
  · exact absurd hlt (by norm_num)
  · exact absurd hle (by norm_num)

/-- Both detection step variants evolve the store exactly like the bare
upsert. -/
theorem detect_step_db (now : Nat) (type_key : String)
    (acc : DetectionStats × Database) (dd : DiscData) :
    (detect_step_main now acc dd).2 =
      (_create_or_update_discrepancy acc.2 dd now).2 ∧
    (detect_step_aux type_key now acc dd).2 =
      (_create_or_update_discrepancy acc.2 dd now).2 :=
  ⟨rfl, rfl⟩

end ApniZameen
